import Mathlib

/-! Overview.
Verification of the credential/session subsystem of `milestone1/app.py`
(PolicyNav demo application).

The Python program keeps accounts in a single SQLite table and exposes a
handful of operations over it (`save_user`, `get_user`, `update_login_stats`,
`get_question`, `check_answer`, `update_password`), hashes passwords and
security answers with `hashlib.sha256(...).hexdigest()`, and issues/verifies
HS256 JWTs (`create_token`, `verify_token`).

This file gives a shallow embedding of that subsystem:

* SHA-256 is implemented in full (FIPS 180-4) over `Nat` bytes and words,
  with explicit `% 2^32` reductions, so that `hash_password` is the actual
  digest function the program uses rather than an abstract stand-in.
* The SQLite table is embedded as a `List Account`; each SQL statement of the
  source is translated to the corresponding pure list operation.  The
  catch-all exception handler in `execute_query` (which converts any storage
  failure into `None`/`False` instead of raising) is modelled by a `dbOk`
  flag on each operation: `dbOk = false` is the branch where the underlying
  query raised and `execute_query` swallowed the exception.
* The PyJWT pair `jwt.encode` / `jwt.decode` is modelled by `create_token` /
  `verify_token` over a structured `Token` type: a well-formed token carries
  the three claims {sub, username, exp} plus an HMAC-SHA256 signature over
  the serialized payload; any byte string that does not decode into that
  shape is a `Token.malformed`.  `jwt.decode` validates the signature against
  the configured secret and rejects expired tokens (`exp ≤ now`); the
  source's bare `except: return None` makes `verify_token` total.

Time is modelled as a `Nat` count of seconds, threaded explicitly where the
source calls `datetime.datetime.utcnow()`.
-/

set_option maxRecDepth 200000

namespace PolicyNav

/-! SHA-256, a model of Python's `hashlib.sha256`.

Bytes are `Nat`s below 256, 32-bit words are `Nat`s below 2^32; overflow is
explicit via `w32`. -/

/-- Reduce to a 32-bit word. -/
def w32 (n : Nat) : Nat := n % 4294967296

/-- Right rotation of a 32-bit word by `n` places. -/
def rotr (x n : Nat) : Nat := w32 ((x >>> n) ||| (x <<< (32 - n)))

/-- Bitwise complement of a 32-bit word. -/
def compl32 (x : Nat) : Nat := 4294967295 ^^^ x

def ch (e f g : Nat) : Nat := (e &&& f) ^^^ (compl32 e &&& g)

def maj (a b c : Nat) : Nat := (a &&& b) ^^^ (a &&& c) ^^^ (b &&& c)

def bigSigma0 (x : Nat) : Nat := rotr x 2 ^^^ rotr x 13 ^^^ rotr x 22

def bigSigma1 (x : Nat) : Nat := rotr x 6 ^^^ rotr x 11 ^^^ rotr x 25

def smallSigma0 (x : Nat) : Nat := rotr x 7 ^^^ rotr x 18 ^^^ (x >>> 3)

def smallSigma1 (x : Nat) : Nat := rotr x 17 ^^^ rotr x 19 ^^^ (x >>> 10)

/-- The 64 SHA-256 round constants (FIPS 180-4 values, written in decimal). -/
def shaK : List Nat :=
  [1116352408, 1899447441, 3049323471, 3921009573, 961987163,
   1508970993, 2453635748, 2870763221, 3624381080, 310598401,
   607225278, 1426881987, 1925078388, 2162078206, 2614888103,
   3248222580, 3835390401, 4022224774, 264347078, 604807628,
   770255983, 1249150122, 1555081692, 1996064986, 2554220882,
   2821834349, 2952996808, 3210313671, 3336571891, 3584528711,
   113926993, 338241895, 666307205, 773529912, 1294757372,
   1396182291, 1695183700, 1986661051, 2177026350, 2456956037,
   2730485921, 2820302411, 3259730800, 3345764771, 3516065817,
   3600352804, 4094571909, 275423344, 430227734, 506948616,
   659060556, 883997877, 958139571, 1322822218, 1537002063,
   1747873779, 1955562222, 2024104815, 2227730452, 2361852424,
   2428436474, 2756734187, 3204031479, 3329325298]

/-- SHA-256 hash state: the eight working words. -/
structure Sha256State where
  h0 : Nat
  h1 : Nat
  h2 : Nat
  h3 : Nat
  h4 : Nat
  h5 : Nat
  h6 : Nat
  h7 : Nat
deriving Repr, DecidableEq

/-- The SHA-256 initial hash value (FIPS 180-4 values, written in decimal). -/
def shaInit : Sha256State :=
  ⟨1779033703, 3144134277, 1013904242,
   2773480762, 1359893119, 2600822924,
   528734635, 1541459225⟩

/-- Big-endian bytes of a 32-bit word (each entry is reduced `% 256`). -/
def wordBytes (w : Nat) : List Nat :=
  [w / 16777216 % 256, w / 65536 % 256, w / 256 % 256, w % 256]

/-- Big-endian byte serialization of the hash state (the 32-byte digest). -/
def stateBytes (s : Sha256State) : List Nat :=
  wordBytes s.h0 ++ wordBytes s.h1 ++ wordBytes s.h2 ++ wordBytes s.h3 ++
  wordBytes s.h4 ++ wordBytes s.h5 ++ wordBytes s.h6 ++ wordBytes s.h7

/-- Big-endian 64-bit length field of the padding. -/
def lenBytes64 (n : Nat) : List Nat :=
  [n / 72057594037927936 % 256, n / 281474976710656 % 256,
   n / 1099511627776 % 256, n / 4294967296 % 256,
   n / 16777216 % 256, n / 65536 % 256, n / 256 % 256, n % 256]

/-- SHA-256 message padding: append `0x80`, zero bytes up to 56 mod 64, then
the message length in bits as a big-endian 64-bit integer. -/
def shaPad (msg : List Nat) : List Nat :=
  msg ++ (0x80 :: List.replicate ((119 - msg.length % 64) % 64) 0)
      ++ lenBytes64 (8 * msg.length)

/-- Group a byte list into big-endian 32-bit words (4 bytes per word). -/
def bytesToWords : List Nat → List Nat
  | b0 :: b1 :: b2 :: b3 :: rest =>
      (b0 * 16777216 + b1 * 65536 + b2 * 256 + b3) :: bytesToWords rest
  | _ => []

/-- Accumulate bytes into blocks: `n` is the number of bytes still wanted in
the current (reversed) partial block `acc`. -/
def blocksAux : Nat → List Nat → List Nat → List (List Nat)
  | _, acc, [] => [acc.reverse]
  | 0, acc, x :: xs => acc.reverse :: blocksAux 63 [x] xs
  | n + 1, acc, x :: xs => blocksAux n (x :: acc) xs

/-- Split a byte list into 64-byte blocks. -/
def blocks64 : List Nat → List (List Nat)
  | [] => []
  | x :: xs => blocksAux 63 [x] xs

/-- One extension step of the message schedule.  The list holds the schedule
words most-recent first, so `W[t-2]`, `W[t-7]`, `W[t-15]`, `W[t-16]` sit at
positions 1, 6, 14, 15. -/
def scheduleStep (rws : List Nat) : List Nat :=
  w32 (smallSigma1 (rws.getD 1 0) + rws.getD 6 0 +
       smallSigma0 (rws.getD 14 0) + rws.getD 15 0) :: rws

/-- Iterate `scheduleStep` `n` times. -/
def scheduleExtend : Nat → List Nat → List Nat
  | 0, rws => rws
  | n + 1, rws => scheduleExtend n (scheduleStep rws)

/-- The 64-word message schedule of a 16-word block. -/
def schedule (block : List Nat) : List Nat :=
  (scheduleExtend 48 block.reverse).reverse

/-- The eight working variables of the compression loop. -/
structure RoundState where
  a : Nat
  b : Nat
  c : Nat
  d : Nat
  e : Nat
  f : Nat
  g : Nat
  h : Nat
deriving Repr, DecidableEq

/-- One round of the SHA-256 compression function; `wk` is the pair of the
schedule word and the round constant. -/
def shaRound (st : RoundState) (wk : Nat × Nat) : RoundState :=
  let t1 := w32 (st.h + bigSigma1 st.e + ch st.e st.f st.g + wk.2 + wk.1)
  let t2 := w32 (bigSigma0 st.a + maj st.a st.b st.c)
  ⟨w32 (t1 + t2), st.a, st.b, st.c, w32 (st.d + t1), st.e, st.f, st.g⟩

/-- Compress one 64-byte block into the running hash state. -/
def compressBlock (s : Sha256State) (block : List Nat) : Sha256State :=
  let ws := schedule (bytesToWords block)
  let r := (ws.zip shaK).foldl shaRound ⟨s.h0, s.h1, s.h2, s.h3, s.h4, s.h5, s.h6, s.h7⟩
  ⟨w32 (s.h0 + r.a), w32 (s.h1 + r.b), w32 (s.h2 + r.c), w32 (s.h3 + r.d),
   w32 (s.h4 + r.e), w32 (s.h5 + r.f), w32 (s.h6 + r.g), w32 (s.h7 + r.h)⟩

/-- SHA-256 of a byte list, as the 32-byte digest. -/
def sha256 (msg : List Nat) : List Nat :=
  stateBytes ((blocks64 (shaPad msg)).foldl compressBlock shaInit)

/-- Lower-case hex digit for a value below 16. -/
def hexDigit (n : Nat) : Char :=
  if n = 0 then '0' else if n = 1 then '1' else if n = 2 then '2'
  else if n = 3 then '3' else if n = 4 then '4' else if n = 5 then '5'
  else if n = 6 then '6' else if n = 7 then '7' else if n = 8 then '8'
  else if n = 9 then '9' else if n = 10 then 'a' else if n = 11 then 'b'
  else if n = 12 then 'c' else if n = 13 then 'd' else if n = 14 then 'e'
  else 'f'

/-- Two hex characters per byte, as in `hexdigest()`. -/
def hexChars : List Nat → List Char
  | [] => []
  | b :: rest => hexDigit (b / 16 % 16) :: hexDigit (b % 16) :: hexChars rest

/-- Lower-case hex string of a byte list (Python's `.hexdigest()`). -/
def hexOfBytes (l : List Nat) : String := String.mk (hexChars l)

/-- UTF-8 encoding of one character (Python's `str.encode()`). -/
def utf8Char (c : Char) : List Nat :=
  let n := c.toNat
  if n < 128 then [n]
  else if n < 2048 then [192 + n / 64, 128 + n % 64]
  else if n < 65536 then [224 + n / 4096, 128 + n / 64 % 64, 128 + n % 64]
  else [240 + n / 262144, 128 + n / 4096 % 64, 128 + n / 64 % 64, 128 + n % 64]

/-- UTF-8 bytes of a string (Python's `str.encode()`). -/
def strBytes (s : String) : List Nat := (s.data.map utf8Char).flatten

/-- Function `hash_password` of `app.py`:
`hashlib.sha256(password.encode()).hexdigest()`. -/
def hash_password (password : String) : String :=
  hexOfBytes (sha256 (strBytes password))

/-! Configuration constants of `app.py`. -/

def SECRET_KEY : String := "super_secret_key_for_demo_2024_enhanced"

def ACCESS_TOKEN_EXPIRE_MINUTES : Nat := 30

/-! Credential store.

One row of the `users` table.  `created_at` plays no part in any operation of
the source and is omitted; `last_login` is `NULL` until the first login;
`login_count` defaults to 0.  The SQLite table is embedded as the list of its
rows in insertion order (`id INTEGER PRIMARY KEY AUTOINCREMENT` makes the row
id the position, and `INSERT` appends). -/

structure Account where
  username : String
  email : String
  password : String
  security_question : String
  security_answer : String
  last_login : Option Nat
  login_count : Nat
deriving Repr, DecidableEq

instance : Inhabited Account := ⟨⟨"", "", "", "", "", none, 0⟩⟩

/-- The `users` table: its rows in insertion order. -/
abbrev Store := List Account

/-- The row inserted by `save_user`'s `INSERT` statement: password and
security answer are stored as SHA-256 digests, the question verbatim,
`last_login` NULL and `login_count` at its column default 0. -/
def newAccount (username email password question answer : String) : Account :=
  ⟨username, email, hash_password password, question, hash_password answer, none, 0⟩

/-- Function `save_user` of `app.py`.  `dbOk = false` models the branch where the
underlying queries raise and `execute_query` swallows the exception: the
`SELECT` then yields `None` (treated as "no existing account") and the
`INSERT` yields `False`, so `save_user` returns
`(False, "Failed to create account")` without touching the store.
With working storage, a duplicate email fails with "Email already exists";
otherwise the new row is appended and `(True, "Success")` is returned. -/
def save_user (dbOk : Bool) (store : Store)
    (username email password question answer : String) : (Bool × String) × Store :=
  if dbOk then
    match store.find? (fun a => a.email == email) with
    | some _ => ((false, "Email already exists"), store)
    | none => ((true, "Success"), store ++ [newAccount username email password question answer])
  else
    ((false, "Failed to create account"), store)

/-- Function `get_user` of `app.py`:
`SELECT username, password, COALESCE(login_count, 0) FROM users WHERE email=?`
with `fetch_one`; `None` when storage fails. -/
def get_user (dbOk : Bool) (store : Store) (email : String) :
    Option (String × String × Nat) :=
  if dbOk then
    (store.find? (fun a => a.email == email)).map
      (fun a => (a.username, a.password, a.login_count))
  else none

/-- Function `update_login_stats` of `app.py`: stamps `last_login` and increments
`login_count` on every row whose email matches.  `execute_query` swallows any
storage failure (returning `False`), and `update_login_stats` ignores that
return value and returns `True` regardless, so the caller sees `True` in
either case and the store is untouched on failure. -/
def update_login_stats (dbOk : Bool) (store : Store) (email : String) (now : Nat) :
    Bool × Store :=
  if dbOk then
    (true, store.map (fun a =>
      if a.email == email then
        { a with last_login := some now, login_count := a.login_count + 1 }
      else a))
  else (true, store)

/-- Function `get_question` of `app.py`:
`SELECT security_question FROM users WHERE email=?`, `result[0] if result
else None`; `None` when storage fails. -/
def get_question (dbOk : Bool) (store : Store) (email : String) : Option String :=
  if dbOk then
    (store.find? (fun a => a.email == email)).map (fun a => a.security_question)
  else none

/-- Function `check_answer` of `app.py`:
`SELECT id FROM users WHERE email=? AND security_answer=?` against the digest
of the offered answer; the result is `result is not None`.  When storage
fails, `execute_query` yields `None` and `check_answer` returns `False`. -/
def check_answer (dbOk : Bool) (store : Store) (email ans : String) : Bool :=
  if dbOk then
    (store.find? (fun a => a.email == email && a.security_answer == hash_password ans)).isSome
  else false

/-- Function `update_password` of `app.py`:
`UPDATE users SET password=? WHERE email=?` with the digest of the new
password, returning `execute_query`'s result directly (`True` on success —
also when no row matches — and `False` when storage fails). -/
def update_password (dbOk : Bool) (store : Store) (email pwd : String) : Bool × Store :=
  if dbOk then
    (true, store.map (fun a =>
      if a.email == email then { a with password := hash_password pwd } else a))
  else (false, store)

/-! Session token issuer, a model of the PyJWT calls in `app.py`.

`jwt.encode(payload, SECRET_KEY, algorithm="HS256")` serializes the payload
and signs it with HMAC-SHA256 under the secret; `jwt.decode(token,
SECRET_KEY, algorithms=["HS256"])` re-computes that signature, rejects the
token when it differs or when the `exp` claim is not in the future, and
raises on any malformed input — a raise the source converts to `None` via its
bare `except`.  The model keeps a decoded token structurally: `Token.signed`
carries the three claims and the signature bytes; every byte string that does
not parse into that shape is some `Token.malformed`.  (The base64url framing
of the wire format is a bijective re-encoding and is omitted.)  Time is in
seconds. -/

/-- JSON serialization of the three-claim payload, the HMAC input. -/
def payloadJson (sub username : String) (exp : Nat) : String :=
  "\x7b\"sub\":\"" ++ sub ++ "\",\"username\":\"" ++ username ++
  "\",\"exp\":" ++ toString exp ++ "\x7d"

/-- HMAC-SHA256 (RFC 2104) over byte lists. -/
def hmacSha256 (key msg : List Nat) : List Nat :=
  let k0 := if 64 < key.length then sha256 key else key
  let kp := k0 ++ List.replicate (64 - k0.length) 0
  sha256 ((kp.map (fun b => b ^^^ 92)) ++ sha256 ((kp.map (fun b => b ^^^ 54)) ++ msg))

/-- The HS256 signature of a payload under the configured secret. -/
def signPayload (sub username : String) (exp : Nat) : List Nat :=
  hmacSha256 (strBytes SECRET_KEY) (strBytes (payloadJson sub username exp))

/-- A token as `verify_token` sees it: either a well-formed three-claim JWT
with some signature bytes, or a byte string that fails structural decoding. -/
inductive Token where
  | signed (sub username : String) (exp : Nat) (sig : List Nat)
  | malformed (raw : String)
deriving Repr, DecidableEq

/-- The claim set returned by a successful `jwt.decode`. -/
structure TokenClaims where
  sub : String
  username : String
  exp : Nat
deriving Repr, DecidableEq

/-- Function `create_token` of `app.py`: payload
`{"sub": email, "username": username, "exp": utcnow() + 30 minutes}` signed
under `SECRET_KEY`. -/
def create_token (email username : String) (now : Nat) : Token :=
  let exp := now + ACCESS_TOKEN_EXPIRE_MINUTES * 60
  Token.signed email username exp (signPayload email username exp)

/-- Function `verify_token` of `app.py`: `jwt.decode` under the configured secret,
with every failure (malformed token, signature mismatch, elapsed expiry)
turned into `none` by the bare `except`. -/
def verify_token (tok : Token) (now : Nat) : Option TokenClaims :=
  match tok with
  | Token.malformed _ => none
  | Token.signed s u e g =>
      if g = signPayload s u e ∧ now < e then some ⟨s, u, e⟩ else none

/-! Auxiliary notions used only to state the claims. -/

/-- One signup request, as passed to `save_user`. -/
structure Signup where
  username : String
  email : String
  password : String
  question : String
  answer : String
deriving Repr, DecidableEq

/-- Run a sequence of signups through `save_user` in order, collecting each
call's `(ok, message)` result and threading the store. -/
def runSignups (dbOk : Bool) (store : Store) : List Signup → List (Bool × String) × Store
  | [] => ([], store)
  | s :: rest =>
      let r := save_user dbOk store s.username s.email s.password s.question s.answer
      let rr := runSignups dbOk r.snd rest
      (r.fst :: rr.fst, rr.snd)

/-- Position `i` of the old store survives into the new store: no account is
deleted (the store can only grow), the account keeps its email, and its login
counter does not decrease. -/
def preservesAccounts (old new : Store) (i : Nat) : Prop :=
  old.length ≤ new.length
  ∧ (new.getD i default).email = (old.getD i default).email
  ∧ (old.getD i default).login_count ≤ (new.getD i default).login_count

/-- The digest of a string, viewed as a function into the finite type
`Fin 32 → Fin 256` (byte `i` of the 32-byte digest). -/
def digestFin (s : String) : Fin 32 → Fin 256 :=
  fun i => ⟨(sha256 (strBytes s)).getD i.val 0 % 256, Nat.mod_lt _ (by norm_num)⟩

/-! Helper lemmas. -/

theorem find?_email_eq_none_iff (store : Store) (e : String) :
    store.find? (fun a => a.email == e) = none ↔ ∀ acct ∈ store, acct.email ≠ e := by
  simp [List.find?_eq_none]

theorem save_user_of_fresh (store : Store) (u e p q a : String)
    (h : ∀ acct ∈ store, acct.email ≠ e) :
    save_user true store u e p q a = ((true, "Success"), store ++ [newAccount u e p q a]) := by
  have hf : store.find? (fun acct => acct.email == e) = none :=
    (find?_email_eq_none_iff store e).mpr h
  simp [save_user, hf]

theorem save_user_of_dup (store : Store) (u e p q a : String)
    (h : ∃ acct ∈ store, acct.email = e) :
    save_user true store u e p q a = ((false, "Email already exists"), store) := by
  cases hf : store.find? (fun acct => acct.email == e) with
  | none =>
      obtain ⟨acct, hm, he⟩ := h
      exact absurd he ((find?_email_eq_none_iff store e).mp hf acct hm)
  | some acct => simp [save_user, hf]

theorem map_update_of_fresh (store : Store) (e : String) (f : Account → Account)
    (h : ∀ acct ∈ store, acct.email ≠ e) :
    store.map (fun a => if a.email == e then f a else a) = store := by
  induction store with
  | nil => rfl
  | cons x xs ih =>
      have hx : (x.email == e) = false := by
        simpa using h x (List.mem_cons_self x xs)
      simp only [List.map_cons, hx, Bool.false_eq_true, if_false]
      rw [ih (fun acct hm => h acct (List.mem_cons_of_mem _ hm))]

theorem getD_map_of_lt (l : List Account) (f : Account → Account) (i : Nat) (d : Account)
    (h : i < l.length) : (l.map f).getD i d = f (l.getD i d) := by
  induction l generalizing i with
  | nil => simp at h
  | cons x xs ih =>
      cases i with
      | zero => rfl
      | succ n =>
          simp only [List.map_cons, List.getD_cons_succ]
          exact ih n (by simp only [List.length_cons] at h; omega)

theorem getD_append_left_of_lt (l1 l2 : List Account) (i : Nat) (d : Account)
    (h : i < l1.length) : (l1 ++ l2).getD i d = l1.getD i d := by
  induction l1 generalizing i with
  | nil => simp at h
  | cons x xs ih =>
      cases i with
      | zero => rfl
      | succ n =>
          simp only [List.cons_append, List.getD_cons_succ]
          exact ih n (by simp only [List.length_cons] at h; omega)

theorem getD_mem_of_lt (l : List Nat) (i : Nat) (d : Nat) (h : i < l.length) :
    l.getD i d ∈ l := by
  induction l generalizing i with
  | nil => simp at h
  | cons x xs ih =>
      cases i with
      | zero => exact List.mem_cons_self x xs
      | succ n =>
          simp only [List.getD_cons_succ]
          exact List.mem_cons_of_mem x (ih n (by simp only [List.length_cons] at h; omega))

theorem eq_of_getD_eq (l1 : List Nat) : ∀ l2 : List Nat, l1.length = l2.length →
    (∀ i, i < l1.length → l1.getD i 0 = l2.getD i 0) → l1 = l2 := by
  induction l1 with
  | nil =>
      intro l2 hlen _
      cases l2 with
      | nil => rfl
      | cons y ys => simp at hlen
  | cons x xs ih =>
      intro l2 hlen h
      cases l2 with
      | nil => simp at hlen
      | cons y ys =>
          have h0 : x = y := by
            simpa using h 0 (by simp only [List.length_cons]; omega)
          have ht : xs = ys := by
            apply ih ys (by simpa using hlen)
            intro i hi
            simpa [List.getD_cons_succ] using
              h (i + 1) (by simp only [List.length_cons]; omega)
          rw [h0, ht]

theorem hexChars_length (l : List Nat) : (hexChars l).length = 2 * l.length := by
  induction l with
  | nil => rfl
  | cons b rest ih =>
      simp only [hexChars, List.length_cons, ih]
      omega

theorem sha256_length (m : List Nat) : (sha256 m).length = 32 := rfl

theorem sha256_all_lt (m : List Nat) : ∀ b ∈ sha256 m, b < 256 := by
  intro b hb
  simp only [sha256, stateBytes, wordBytes, List.mem_append, List.mem_cons,
    List.not_mem_nil, or_false] at hb
  omega

theorem hash_password_length (p : String) : (hash_password p).length = 64 := by
  show (hexChars (sha256 (strBytes p))).length = 64
  rw [hexChars_length, sha256_length]

/-- Pigeonhole: a function from the infinitely many strings to 32-byte
digests cannot be injective, so the digest used by `hash_password` has
collisions (no concrete one is known, but their existence is forced by the
fixed output length). -/
theorem hash_collision : ∃ x y : String, x ≠ y ∧ hash_password x = hash_password y := by
  obtain ⟨x, y, hne, heq⟩ := Finite.exists_ne_map_eq_of_infinite digestFin
  refine ⟨x, y, hne, ?_⟩
  have hsha : sha256 (strBytes x) = sha256 (strBytes y) := by
    apply eq_of_getD_eq _ _ (by rw [sha256_length, sha256_length])
    intro i hi
    have hi32 : i < 32 := by rwa [sha256_length] at hi
    have hv : (sha256 (strBytes x)).getD i 0 % 256 = (sha256 (strBytes y)).getD i 0 % 256 :=
      congrArg Fin.val (congrFun heq ⟨i, hi32⟩)
    have hx : (sha256 (strBytes x)).getD i 0 < 256 :=
      sha256_all_lt _ _ (getD_mem_of_lt _ _ _ (by rw [sha256_length]; exact hi32))
    have hy : (sha256 (strBytes y)).getD i 0 < 256 :=
      sha256_all_lt _ _ (getD_mem_of_lt _ _ _ (by rw [sha256_length]; exact hi32))
    rwa [Nat.mod_eq_of_lt hx, Nat.mod_eq_of_lt hy] at hv
  simp [hash_password, hsha]

theorem runSignups_fresh (store : Store) (sgs : List Signup)
    (hfresh : ∀ s ∈ sgs, ∀ acct ∈ store, acct.email ≠ s.email)
    (hdist : sgs.Pairwise (fun s t => s.email ≠ t.email)) :
    (runSignups true store sgs).fst = sgs.map (fun _ => (true, "Success"))
    ∧ (runSignups true store sgs).snd.map (fun a => a.email)
        = store.map (fun a => a.email) ++ sgs.map (fun s => s.email) := by
  induction sgs generalizing store with
  | nil => exact ⟨rfl, by simp [runSignups]⟩
  | cons s rest ih =>
      have hf : ∀ acct ∈ store, acct.email ≠ s.email :=
        hfresh s (List.mem_cons_self s rest)
      have hsave := save_user_of_fresh store s.username s.email s.password s.question s.answer hf
      obtain ⟨hd, htl⟩ := List.pairwise_cons.mp hdist
      have hfresh2 : ∀ t ∈ rest,
          ∀ acct ∈ store ++ [newAccount s.username s.email s.password s.question s.answer],
          acct.email ≠ t.email := by
        intro t htm acct hacct
        rcases List.mem_append.mp hacct with hin | hin
        · exact hfresh t (List.mem_cons_of_mem s htm) acct hin
        · have hacc : acct = newAccount s.username s.email s.password s.question s.answer :=
            List.mem_singleton.mp hin
          rw [hacc]
          exact hd t htm
      obtain ⟨ih1, ih2⟩ := ih _ hfresh2 htl
      refine ⟨?_, ?_⟩
      · simp only [runSignups, hsave, List.map_cons]
        rw [ih1]
      · simp only [runSignups, hsave]
        rw [ih2]
        simp [newAccount]

theorem preserves_map (store : Store) (i : Nat) (h : i < store.length)
    (f : Account → Account)
    (hemail : ∀ acct, (f acct).email = acct.email)
    (hcount : ∀ acct, acct.login_count ≤ (f acct).login_count) :
    preservesAccounts store (store.map f) i := by
  refine ⟨by simp, ?_, ?_⟩
  · rw [getD_map_of_lt _ _ _ _ h]
    exact hemail _
  · rw [getD_map_of_lt _ _ _ _ h]
    exact hcount _

theorem preserves_append (store l2 : Store) (i : Nat) (h : i < store.length) :
    preservesAccounts store (store ++ l2) i := by
  refine ⟨by simp, by rw [getD_append_left_of_lt _ _ _ _ h], ?_⟩
  rw [getD_append_left_of_lt _ _ _ _ h]

theorem preserves_refl (store : Store) (i : Nat) : preservesAccounts store store i :=
  ⟨Nat.le_refl _, rfl, Nat.le_refl _⟩

/-- Find over a password-updated store: the update leaves emails untouched,
so lookup by email commutes with the update. -/
theorem find?_update_password (store : Store) (e pNew : String) :
    (store.map (fun a =>
        if a.email == e then { a with password := hash_password pNew } else a)).find?
      (fun a => a.email == e)
    = (store.find? (fun a => a.email == e)).map
        (fun a => { a with password := hash_password pNew }) := by
  induction store with
  | nil => rfl
  | cons x xs ih =>
      by_cases hc : (x.email == e) = true
      · have h1 : List.find? (fun a => a.email == e)
            ({ x with password := hash_password pNew } ::
              xs.map (fun a =>
                if a.email == e then { a with password := hash_password pNew } else a))
            = some { x with password := hash_password pNew } :=
          List.find?_cons_of_pos _ (by exact hc)
        have h2 : List.find? (fun a => a.email == e) (x :: xs) = some x :=
          List.find?_cons_of_pos _ hc
        rw [List.map_cons, if_pos hc, h1, h2]
        rfl
      · have h1 : List.find? (fun a => a.email == e)
            (x :: xs.map (fun a =>
                if a.email == e then { a with password := hash_password pNew } else a))
            = List.find? (fun a => a.email == e)
                (xs.map (fun a =>
                  if a.email == e then { a with password := hash_password pNew } else a)) :=
          List.find?_cons_of_neg _ hc
        have h2 : List.find? (fun a => a.email == e) (x :: xs)
            = List.find? (fun a => a.email == e) xs :=
          List.find?_cons_of_neg _ hc
        rw [List.map_cons, if_neg hc, h1, h2, ih]

/-! Claim theorems. -/

/-- C2: verifying a token produced by `create_token email username` at any
instant `tv` before the token's expiry yields exactly the claims
{sub = email, username = username, exp = issue time + 30 minutes}: the
round-trip `verify(issue(email, username))` returns the input pair. -/
theorem c2_token_roundtrip (email username : String) (now tv : Nat)
    (h : tv < now + ACCESS_TOKEN_EXPIRE_MINUTES * 60) :
    verify_token (create_token email username now) tv =
      some ⟨email, username, now + ACCESS_TOKEN_EXPIRE_MINUTES * 60⟩ := by
  simp [create_token, verify_token, h]

theorem c2_token_roundtrip_witness :
    100 < 0 + ACCESS_TOKEN_EXPIRE_MINUTES * 60 ∧
    verify_token (create_token "a@x.com" "alice" 0) 100 =
      some ⟨"a@x.com", "alice", 0 + ACCESS_TOKEN_EXPIRE_MINUTES * 60⟩ :=
  ⟨by decide, c2_token_roundtrip "a@x.com" "alice" 0 100 (by decide)⟩

/-- C3: `verify_token` returns `none` — it is a total function, so nothing
escapes this boundary — on every structurally malformed token, on every
token whose expiry instant has passed (is not in the future), and on every
token whose signature differs from the HMAC computed under the configured
secret. -/
theorem c3_verify_fails_closed (s u raw : String) (e : Nat) (g : List Nat) (now : Nat) :
    verify_token (Token.malformed raw) now = none
    ∧ (e ≤ now → verify_token (Token.signed s u e g) now = none)
    ∧ (g ≠ signPayload s u e → verify_token (Token.signed s u e g) now = none) := by
  refine ⟨rfl, fun hexp => ?_, fun hsig => ?_⟩
  · show (if g = signPayload s u e ∧ now < e then some (⟨s, u, e⟩ : TokenClaims) else none) = none
    rw [if_neg]
    rintro ⟨-, hlt⟩
    omega
  · show (if g = signPayload s u e ∧ now < e then some (⟨s, u, e⟩ : TokenClaims) else none) = none
    rw [if_neg]
    rintro ⟨hg, -⟩
    exact hsig hg

theorem c3_verify_fails_closed_witness :
    verify_token (Token.malformed "not-a-jwt") 0 = none
    ∧ (1800 ≤ 1800 ∧
        verify_token
          (Token.signed "a@x.com" "alice" 1800 (signPayload "a@x.com" "alice" 1800)) 1800 = none)
    ∧ ([] ≠ signPayload "a@x.com" "alice" 1800 ∧
        verify_token (Token.signed "a@x.com" "alice" 1800 []) 0 = none) :=
  ⟨(c3_verify_fails_closed "a@x.com" "alice" "not-a-jwt" 1800 [] 0).1,
   ⟨by decide,
    (c3_verify_fails_closed "a@x.com" "alice" "x" 1800
      (signPayload "a@x.com" "alice" 1800) 1800).2.1 (by decide)⟩,
   ⟨by decide,
    (c3_verify_fails_closed "a@x.com" "alice" "x" 1800 [] 0).2.2 (by decide)⟩⟩

/-- C4: when `save_user` succeeds on a fresh email it appends exactly one
row, whose password field is the SHA-256 digest of the plaintext password,
whose security-answer field is the SHA-256 digest of the plaintext answer,
and whose security-question text equals the input string verbatim. -/
theorem c4_digests_stored (store : Store) (u e p q a : String)
    (hfresh : ∀ acct ∈ store, acct.email ≠ e) :
    save_user true store u e p q a =
      ((true, "Success"),
       store ++ [{ username := u, email := e, password := hash_password p,
                   security_question := q, security_answer := hash_password a,
                   last_login := none, login_count := 0 }]) :=
  save_user_of_fresh store u e p q a hfresh

theorem c4_digests_stored_witness :
    (∀ acct ∈ ([] : Store), acct.email ≠ "a@x.com")
    ∧ save_user true [] "alice" "a@x.com" "longpass1" "Pet?" "Rex" =
        ((true, "Success"),
         [{ username := "alice", email := "a@x.com", password := hash_password "longpass1",
            security_question := "Pet?", security_answer := hash_password "Rex",
            last_login := none, login_count := 0 }]) :=
  ⟨by simp, c4_digests_stored [] "alice" "a@x.com" "longpass1" "Pet?" "Rex" (by simp)⟩

/-- C9: for an email with no account in the store, `check_answer` returns
plain `false` for every offered answer — being a total `Bool`-valued
function it neither raises nor returns a distinct absent marker — so an
unknown email is indistinguishable from a wrong answer at this interface. -/
theorem c9_unknown_email_check_answer (store : Store) (e ans : String)
    (h : ∀ acct ∈ store, acct.email ≠ e) :
    check_answer true store e ans = false := by
  have hf : store.find?
      (fun a => a.email == e && a.security_answer == hash_password ans) = none := by
    rw [List.find?_eq_none]
    intro x hx
    simp only [Bool.and_eq_true, beq_iff_eq, not_and]
    exact fun hx1 _ => h x hx hx1
  simp [check_answer, hf]

theorem c9_unknown_email_check_answer_witness :
    (∀ acct ∈ ([{ username := "alice", email := "a@x.com", password := "ph",
                  security_question := "Pet?", security_answer := "sh",
                  last_login := none, login_count := 0 }] : Store),
        acct.email ≠ "ghost@x.com")
    ∧ check_answer true
        [{ username := "alice", email := "a@x.com", password := "ph",
           security_question := "Pet?", security_answer := "sh",
           last_login := none, login_count := 0 }] "ghost@x.com" "Rex" = false :=
  ⟨by decide,
   c9_unknown_email_check_answer
     [{ username := "alice", email := "a@x.com", password := "ph",
        security_question := "Pet?", security_answer := "sh",
        last_login := none, login_count := 0 }] "ghost@x.com" "Rex" (by decide)⟩

/-- C10: for an email with no account in the store, `update_password`
reports success (the SQL UPDATE matches no row yet succeeds) and leaves
every stored account unchanged — a silent no-op, with no NotFound error. -/
theorem c10_reset_unknown_email_noop (store : Store) (e p : String)
    (h : ∀ acct ∈ store, acct.email ≠ e) :
    update_password true store e p = (true, store) := by
  show (true, store.map
    (fun a => if a.email == e then { a with password := hash_password p } else a)) = (true, store)
  rw [map_update_of_fresh store e _ h]

/-- C1: with working storage, `save_user` fails with the duplicate-email
message and an unchanged store whenever some stored account already carries
the email; a sequence of signups whose emails are pairwise distinct and all
fresh for the store succeeds at every single step; and afterwards any signup
reusing one of those emails always fails with the duplicate-email message. -/
theorem c1_duplicate_email (store : Store) (sgs : List Signup) (u e p q a : String)
    (hfresh : ∀ s ∈ sgs, ∀ acct ∈ store, acct.email ≠ s.email)
    (hdist : sgs.Pairwise (fun s t => s.email ≠ t.email)) :
    ((∃ acct ∈ store, acct.email = e) →
      save_user true store u e p q a = ((false, "Email already exists"), store))
    ∧ (runSignups true store sgs).fst = sgs.map (fun _ => (true, "Success"))
    ∧ ∀ s ∈ sgs, ∀ u2 p2 q2 a2,
        (save_user true (runSignups true store sgs).snd u2 s.email p2 q2 a2).fst
          = (false, "Email already exists") := by
  obtain ⟨h1, h2⟩ := runSignups_fresh store sgs hfresh hdist
  refine ⟨fun hdup => save_user_of_dup store u e p q a hdup, h1, ?_⟩
  intro s hs u2 p2 q2 a2
  have hmem : s.email ∈ (runSignups true store sgs).snd.map (fun acct => acct.email) := by
    rw [h2, List.mem_append]
    exact Or.inr (List.mem_map.mpr ⟨s, hs, rfl⟩)
  obtain ⟨acct, hacct, hee⟩ := List.mem_map.mp hmem
  rw [save_user_of_dup _ u2 s.email p2 q2 a2 ⟨acct, hacct, hee⟩]

theorem c1_duplicate_email_witness :
    (∀ s ∈ ([⟨"alice", "a@x.com", "longpass1", "Pet?", "Rex"⟩,
             ⟨"bob", "b@x.com", "pw2secret", "Q2", "A2"⟩] : List Signup),
      ∀ acct ∈ ([{ username := "zoe", email := "z@x.com", password := "ph",
                   security_question := "q", security_answer := "sh",
                   last_login := none, login_count := 0 }] : Store), acct.email ≠ s.email)
    ∧ ([⟨"alice", "a@x.com", "longpass1", "Pet?", "Rex"⟩,
        ⟨"bob", "b@x.com", "pw2secret", "Q2", "A2"⟩] : List Signup).Pairwise
        (fun s t => s.email ≠ t.email)
    ∧ (((∃ acct ∈ ([{ username := "zoe", email := "z@x.com", password := "ph",
                      security_question := "q", security_answer := "sh",
                      last_login := none, login_count := 0 }] : Store),
          acct.email = "z@x.com") →
        save_user true
          [{ username := "zoe", email := "z@x.com", password := "ph",
             security_question := "q", security_answer := "sh",
             last_login := none, login_count := 0 }] "mallory" "z@x.com" "pw" "q" "a" =
          ((false, "Email already exists"),
           [{ username := "zoe", email := "z@x.com", password := "ph",
              security_question := "q", security_answer := "sh",
              last_login := none, login_count := 0 }]))
      ∧ (runSignups true
          [{ username := "zoe", email := "z@x.com", password := "ph",
             security_question := "q", security_answer := "sh",
             last_login := none, login_count := 0 }]
          [⟨"alice", "a@x.com", "longpass1", "Pet?", "Rex"⟩,
           ⟨"bob", "b@x.com", "pw2secret", "Q2", "A2"⟩]).fst =
          ([⟨"alice", "a@x.com", "longpass1", "Pet?", "Rex"⟩,
            ⟨"bob", "b@x.com", "pw2secret", "Q2", "A2"⟩] : List Signup).map
            (fun _ => (true, "Success"))
      ∧ ∀ s ∈ ([⟨"alice", "a@x.com", "longpass1", "Pet?", "Rex"⟩,
                ⟨"bob", "b@x.com", "pw2secret", "Q2", "A2"⟩] : List Signup),
          ∀ u2 p2 q2 a2,
            (save_user true
              (runSignups true
                [{ username := "zoe", email := "z@x.com", password := "ph",
                   security_question := "q", security_answer := "sh",
                   last_login := none, login_count := 0 }]
                [⟨"alice", "a@x.com", "longpass1", "Pet?", "Rex"⟩,
                 ⟨"bob", "b@x.com", "pw2secret", "Q2", "A2"⟩]).snd
              u2 s.email p2 q2 a2).fst = (false, "Email already exists")) :=
  ⟨by decide, by decide,
   c1_duplicate_email
     [{ username := "zoe", email := "z@x.com", password := "ph",
        security_question := "q", security_answer := "sh",
        last_login := none, login_count := 0 }]
     [⟨"alice", "a@x.com", "longpass1", "Pet?", "Rex"⟩,
      ⟨"bob", "b@x.com", "pw2secret", "Q2", "A2"⟩]
     "mallory" "z@x.com" "pw" "q" "a" (by decide) (by decide)⟩

/-- C6: with working storage `update_login_stats` returns `True` and, at
every position whose account's email matches, increments the login counter
by exactly one and stamps the last-login time, leaving any other position
unchanged; when the underlying query fails, the failure is swallowed: the
call still returns `True` and the store is untouched, so no failure
surfaces to the caller (and the function, being total, never raises). -/
theorem c6_record_login (store : Store) (e : String) (now : Nat) (i : Nat)
    (h : i < store.length) :
    (update_login_stats true store e now).fst = true
    ∧ ((store.getD i default).email = e →
        ((update_login_stats true store e now).snd.getD i default).login_count
          = (store.getD i default).login_count + 1
        ∧ ((update_login_stats true store e now).snd.getD i default).last_login = some now)
    ∧ ((store.getD i default).email ≠ e →
        (update_login_stats true store e now).snd.getD i default = store.getD i default)
    ∧ update_login_stats false store e now = (true, store) := by
  refine ⟨rfl, fun he => ⟨?_, ?_⟩, fun hne => ?_, rfl⟩
  · show ((store.map (fun a =>
        if a.email == e then { a with last_login := some now, login_count := a.login_count + 1 }
        else a)).getD i default).login_count = _
    rw [getD_map_of_lt _ _ _ _ h, if_pos (beq_iff_eq.mpr he)]
  · show ((store.map (fun a =>
        if a.email == e then { a with last_login := some now, login_count := a.login_count + 1 }
        else a)).getD i default).last_login = _
    rw [getD_map_of_lt _ _ _ _ h, if_pos (beq_iff_eq.mpr he)]
  · show (store.map (fun a =>
        if a.email == e then { a with last_login := some now, login_count := a.login_count + 1 }
        else a)).getD i default = _
    rw [getD_map_of_lt _ _ _ _ h, if_neg (fun hc => hne (beq_iff_eq.mp hc))]

theorem c6_record_login_witness :
    0 < ([{ username := "alice", email := "a@x.com", password := "ph",
            security_question := "Pet?", security_answer := "sh",
            last_login := none, login_count := 3 }] : Store).length
    ∧ ((update_login_stats true
          [{ username := "alice", email := "a@x.com", password := "ph",
             security_question := "Pet?", security_answer := "sh",
             last_login := none, login_count := 3 }] "a@x.com" 1000).fst = true
      ∧ ((([{ username := "alice", email := "a@x.com", password := "ph",
              security_question := "Pet?", security_answer := "sh",
              last_login := none, login_count := 3 }] : Store).getD 0 default).email = "a@x.com" →
          ((update_login_stats true
            [{ username := "alice", email := "a@x.com", password := "ph",
               security_question := "Pet?", security_answer := "sh",
               last_login := none, login_count := 3 }] "a@x.com" 1000).snd.getD 0
               default).login_count =
            (([{ username := "alice", email := "a@x.com", password := "ph",
                 security_question := "Pet?", security_answer := "sh",
                 last_login := none, login_count := 3 }] : Store).getD 0
                 default).login_count + 1
          ∧ ((update_login_stats true
            [{ username := "alice", email := "a@x.com", password := "ph",
               security_question := "Pet?", security_answer := "sh",
               last_login := none, login_count := 3 }] "a@x.com" 1000).snd.getD 0
               default).last_login = some 1000)
      ∧ ((([{ username := "alice", email := "a@x.com", password := "ph",
              security_question := "Pet?", security_answer := "sh",
              last_login := none, login_count := 3 }] : Store).getD 0 default).email ≠ "a@x.com" →
          (update_login_stats true
            [{ username := "alice", email := "a@x.com", password := "ph",
               security_question := "Pet?", security_answer := "sh",
               last_login := none, login_count := 3 }] "a@x.com" 1000).snd.getD 0 default =
            ([{ username := "alice", email := "a@x.com", password := "ph",
                security_question := "Pet?", security_answer := "sh",
                last_login := none, login_count := 3 }] : Store).getD 0 default)
      ∧ update_login_stats false
          [{ username := "alice", email := "a@x.com", password := "ph",
             security_question := "Pet?", security_answer := "sh",
             last_login := none, login_count := 3 }] "a@x.com" 1000 =
          (true,
           [{ username := "alice", email := "a@x.com", password := "ph",
              security_question := "Pet?", security_answer := "sh",
              last_login := none, login_count := 3 }])) :=
  ⟨by decide,
   c6_record_login
     [{ username := "alice", email := "a@x.com", password := "ph",
        security_question := "Pet?", security_answer := "sh",
        last_login := none, login_count := 3 }] "a@x.com" 1000 0 (by decide)⟩

/-- C7 (amended): the digest function is deterministic — `digest(x)` equals
`digest(x)` for every input — and always yields a 64-hex-character string;
because of that fixed output length it cannot be injective on the infinitely
many strings: colliding distinct inputs exist, so universal injectivity
fails (distinct digests can only be asserted for a finite corpus). -/
theorem c7_digest_deterministic_not_injective :
    (∀ x : String, hash_password x = hash_password x)
    ∧ (∀ x : String, (hash_password x).length = 64)
    ∧ ¬ (∀ x y : String, x ≠ y → hash_password x ≠ hash_password y) := by
  refine ⟨fun x => rfl, fun x => hash_password_length x, fun hinj => ?_⟩
  obtain ⟨x, y, hne, heq⟩ := hash_collision
  exact hinj x y hne heq

theorem c7_counterexample :
    ¬ ((∀ x : String, hash_password x = hash_password x)
       ∧ (∀ x y : String, x ≠ y → hash_password x ≠ hash_password y)) := by
  rintro ⟨-, hinj⟩
  obtain ⟨x, y, hne, heq⟩ := hash_collision
  exact hinj x y hne heq

/-- C8: no store operation ever decreases a stored account's login counter
or deletes an account.  For both the working-storage and the failed-storage
branch, each mutating operation (`save_user`, `update_login_stats`,
`update_password`) preserves every existing position: the store never
shrinks, the account at position `i` keeps its email, and its login counter
never decreases.  The remaining operations (`get_user`, `get_question`,
`check_answer`) are read-only: they return no store at all. -/
theorem c8_counter_monotone (dbOk : Bool) (store : Store) (u e p q a : String)
    (now : Nat) (i : Nat) (h : i < store.length) :
    preservesAccounts store (save_user dbOk store u e p q a).snd i
    ∧ preservesAccounts store (update_login_stats dbOk store e now).snd i
    ∧ preservesAccounts store (update_password dbOk store e p).snd i := by
  cases dbOk with
  | false => exact ⟨preserves_refl store i, preserves_refl store i, preserves_refl store i⟩
  | true =>
      refine ⟨?_, ?_, ?_⟩
      · cases hf : store.find? (fun acct => acct.email == e) with
        | some acct =>
            have hs : (save_user true store u e p q a).snd = store := by
              simp [save_user, hf]
            rw [hs]
            exact preserves_refl store i
        | none =>
            have hs : (save_user true store u e p q a).snd = store ++ [newAccount u e p q a] := by
              simp [save_user, hf]
            rw [hs]
            exact preserves_append store _ i h
      · refine preserves_map store i h _ (fun acct => ?_) (fun acct => ?_)
        · by_cases hc : (acct.email == e) = true
          · rw [if_pos hc]
          · rw [if_neg hc]
        · by_cases hc : (acct.email == e) = true
          · rw [if_pos hc]
            exact Nat.le_succ _
          · rw [if_neg hc]
      · refine preserves_map store i h _ (fun acct => ?_) (fun acct => ?_)
        · by_cases hc : (acct.email == e) = true
          · rw [if_pos hc]
          · rw [if_neg hc]
        · by_cases hc : (acct.email == e) = true
          · rw [if_pos hc]
          · rw [if_neg hc]

theorem c8_counter_monotone_witness :
    0 < ([{ username := "alice", email := "a@x.com", password := "ph",
            security_question := "Pet?", security_answer := "sh",
            last_login := none, login_count := 3 }] : Store).length
    ∧ (preservesAccounts
        [{ username := "alice", email := "a@x.com", password := "ph",
           security_question := "Pet?", security_answer := "sh",
           last_login := none, login_count := 3 }]
        (save_user true
          [{ username := "alice", email := "a@x.com", password := "ph",
             security_question := "Pet?", security_answer := "sh",
             last_login := none, login_count := 3 }] "bob" "a@x.com" "newpass1" "Q2" "A2").snd 0
      ∧ preservesAccounts
          [{ username := "alice", email := "a@x.com", password := "ph",
             security_question := "Pet?", security_answer := "sh",
             last_login := none, login_count := 3 }]
          (update_login_stats true
            [{ username := "alice", email := "a@x.com", password := "ph",
               security_question := "Pet?", security_answer := "sh",
               last_login := none, login_count := 3 }] "a@x.com" 1000).snd 0
      ∧ preservesAccounts
          [{ username := "alice", email := "a@x.com", password := "ph",
             security_question := "Pet?", security_answer := "sh",
             last_login := none, login_count := 3 }]
          (update_password true
            [{ username := "alice", email := "a@x.com", password := "ph",
               security_question := "Pet?", security_answer := "sh",
               last_login := none, login_count := 3 }] "a@x.com" "newpass1").snd 0) :=
  ⟨by decide,
   c8_counter_monotone true
     [{ username := "alice", email := "a@x.com", password := "ph",
        security_question := "Pet?", security_answer := "sh",
        last_login := none, login_count := 3 }] "bob" "a@x.com" "newpass1" "Q2" "A2" 1000 0
     (by decide)⟩

theorem c10_reset_unknown_email_noop_witness :
    (∀ acct ∈ ([{ username := "alice", email := "a@x.com", password := "ph",
                  security_question := "Pet?", security_answer := "sh",
                  last_login := none, login_count := 0 }] : Store),
        acct.email ≠ "ghost@x.com")
    ∧ update_password true
        [{ username := "alice", email := "a@x.com", password := "ph",
           security_question := "Pet?", security_answer := "sh",
           last_login := none, login_count := 0 }] "ghost@x.com" "newpass1" =
      (true,
       [{ username := "alice", email := "a@x.com", password := "ph",
          security_question := "Pet?", security_answer := "sh",
          last_login := none, login_count := 0 }]) :=
  ⟨by decide,
   c10_reset_unknown_email_noop
     [{ username := "alice", email := "a@x.com", password := "ph",
        security_question := "Pet?", security_answer := "sh",
        last_login := none, login_count := 0 }] "ghost@x.com" "newpass1" (by decide)⟩

/-- C5 as frozen is false on the code: it asks that after a reset the stored
digest differ from the old password's digest whenever the plaintexts differ,
but SHA-256 has colliding plaintexts (pigeonhole over its 32-byte range), and
for a colliding old/new pair the overwritten digest equals the old one. -/
theorem c5_counterexample :
    ¬ (∀ (store : Store) (e pOld pNew : String),
        (∃ acct ∈ store, acct.email = e ∧ acct.password = hash_password pOld) →
        pOld ≠ pNew →
        ∀ un pw lc,
          get_user true (update_password true store e pNew).snd e = some (un, pw, lc) →
            pw = hash_password pNew ∧ pw ≠ hash_password pOld) := by
  intro hclaim
  obtain ⟨x, y, hne, heq⟩ := hash_collision
  have h := hclaim
    [{ username := "u", email := "e@x.com", password := hash_password x,
       security_question := "q", security_answer := "s",
       last_login := none, login_count := 0 }]
    "e@x.com" x y
    ⟨{ username := "u", email := "e@x.com", password := hash_password x,
       security_question := "q", security_answer := "s",
       last_login := none, login_count := 0 },
     List.mem_singleton.mpr rfl, rfl, rfl⟩
    hne "u" (hash_password y) 0 rfl
  exact h.2 heq.symm

/-- C5 (amended): after `update_password` on a working store, looking the
email up with `get_user` returns the digest of the new password; and
whenever the old password's digest differs from the new one (which SHA-256
collisions prevent from being weakened to mere plaintext inequality), the
returned digest also differs from the old digest — the store reflects the
new password, never the old one, and the overwrite is unconditional. -/
theorem c5_reset_password (store : Store) (e pOld pNew : String)
    (_hacct : ∃ acct ∈ store, acct.email = e ∧ acct.password = hash_password pOld)
    (hne : hash_password pOld ≠ hash_password pNew) :
    ∀ un pw lc,
      get_user true (update_password true store e pNew).snd e = some (un, pw, lc) →
        pw = hash_password pNew ∧ pw ≠ hash_password pOld := by
  intro un pw lc hget
  have hstep : get_user true (update_password true store e pNew).snd e
      = ((store.find? (fun a => a.email == e)).map
          (fun a => { a with password := hash_password pNew })).map
          (fun a => (a.username, a.password, a.login_count)) := by
    show ((store.map (fun a =>
          if a.email == e then { a with password := hash_password pNew } else a)).find?
        (fun a => a.email == e)).map (fun a => (a.username, a.password, a.login_count)) = _
    rw [find?_update_password]
  rw [hstep] at hget
  cases hfind : store.find? (fun a => a.email == e) with
  | none =>
      rw [hfind] at hget
      simp at hget
  | some acct =>
      rw [hfind] at hget
      simp only [Option.map_some', Option.some.injEq, Prod.mk.injEq] at hget
      obtain ⟨-, hpw, -⟩ := hget
      refine ⟨hpw.symm, ?_⟩
      rw [← hpw]
      exact fun hcontra => hne hcontra.symm

theorem c5_reset_password_witness :
    (∃ acct ∈ ([{ username := "alice", email := "a@x.com", password := hash_password "longpass1",
                  security_question := "Pet?", security_answer := "sh",
                  last_login := none, login_count := 0 }] : Store),
        acct.email = "a@x.com" ∧ acct.password = hash_password "longpass1")
    ∧ hash_password "longpass1" ≠ hash_password "newpass1"
    ∧ (hash_password "newpass1" = hash_password "newpass1"
       ∧ hash_password "newpass1" ≠ hash_password "longpass1") :=
  ⟨⟨{ username := "alice", email := "a@x.com", password := hash_password "longpass1",
      security_question := "Pet?", security_answer := "sh",
      last_login := none, login_count := 0 },
    List.mem_singleton.mpr rfl, rfl, rfl⟩,
   by decide,
   c5_reset_password
     [{ username := "alice", email := "a@x.com", password := hash_password "longpass1",
        security_question := "Pet?", security_answer := "sh",
        last_login := none, login_count := 0 }]
     "a@x.com" "longpass1" "newpass1"
     ⟨{ username := "alice", email := "a@x.com", password := hash_password "longpass1",
        security_question := "Pet?", security_answer := "sh",
        last_login := none, login_count := 0 },
      List.mem_singleton.mpr rfl, rfl, rfl⟩
     (by decide) "alice" (hash_password "newpass1") 0 rfl⟩

end PolicyNav
